import Mathlib

/-!
Verification development for the `floating_palette` Windows native core:
a shallow embedding of the Dock/Snap Engine (`snap_service.cpp`), the Drag
Lifecycle Coordinator (`drag_coordinator.cpp`) and the Animation
Interpolator (`animation_service.cpp`), together with theorems settling the
specification claims about them.

Modelling conventions:
* Win32 `RECT`/`POINT` coordinates are `Int` (physical pixels).
* C++ `double` values (gaps, thresholds, animation values, scale factors)
  are modelled as `ℚ`.
* The `WindowStore` singleton plus the Win32 geometry queries
  (`GetWindowRect`, `IsWindowVisible`, `GetScaleFactorForHwnd`) are modelled
  as a read-only environment `Env : String → Option WinInfo` describing the
  directory at the instant an operation runs.
* Side effects (`SetWindowPos`, `SetParent`, capture, delegate
  notifications) are returned as explicit effect lists; events sent through
  the `event_sink_` are returned as event lists (the sink is installed).
* Flutter `EncodableValue` parameters are modelled by the inductive
  `EncVal`; map keys are `String`s, which is the only key type the code
  ever looks up.
-/

set_option autoImplicit false

namespace FloatingPalette

/-- Win32 `RECT`: left/top/right/bottom edges in physical pixels. -/
structure Rect where
  left : Int
  top : Int
  right : Int
  bottom : Int
  deriving DecidableEq, Repr

/-- Win32 `POINT`. -/
structure Point where
  x : Int
  y : Int
  deriving DecidableEq, Repr

/-- The per-window data the three engines read: whether `WindowStore::Get`
returned a window with a non-null `hwnd`, the `GetWindowRect` frame, the
`IsWindowVisible` flag, the `GetScaleFactorForHwnd` DPI scale and the
tracked `opacity` field of `PaletteWindow`. -/
structure WinInfo where
  hasHwnd : Bool
  rect : Rect
  visible : Bool
  scale : ℚ
  opacity : ℚ
  deriving DecidableEq, Repr

/-- The window directory joined with the OS geometry state: `none` when the
id is not registered (`WindowStore::Get` returns `nullptr`). -/
def Env : Type := String → Option WinInfo

/-- Model of `std::round`: round half away from zero (used by `LogicalToPhysical` in
`dpi_helper.h`). -/
def cppRound (q : ℚ) : Int :=
  if 0 ≤ q then ⌊q + 1/2⌋ else -⌊-q + 1/2⌋

/-- Model of `dpi_helper.h` `LogicalToPhysical`: `(int)std::round(logical * scale)`. -/
def logicalToPhysical (logical : ℚ) (scale : ℚ) : Int :=
  cppRound (logical * scale)

/-- Model of `dpi_helper.h` `PhysicalToLogical`: `physical / scale`, with
non-positive scales passing the value through. -/
def physicalToLogical (physical : ℚ) (scale : ℚ) : ℚ :=
  if scale ≤ 0 then physical else physical / scale

/-- Model of `flutter::EncodableValue` restricted to the shapes the plugin
reads: null, bool, integers (32/64-bit collapsed), doubles, strings, lists
and string-keyed maps. -/
inductive EncVal where
  | null
  | bool (v : Bool)
  | int (v : Int)
  | num (v : ℚ)
  | str (v : String)
  | list (vs : List EncVal)
  | map (kvs : List (String × EncVal))

/-- A `flutter::EncodableMap` with string keys. -/
abbrev Params := List (String × EncVal)

/-- Model of `EncodableMap::find` on a string key: first entry with that key. -/
def lookupP (m : Params) (k : String) : Option EncVal :=
  match m with
  | [] => none
  | (k', v) :: rest => if k' = k then some v else lookupP rest k

/-- Model of `param_helpers.h` `GetString`. -/
def getStringP (m : Params) (k : String) (dflt : String) : String :=
  match lookupP m k with
  | some (.str v) => v
  | _ => dflt

/-- Model of `param_helpers.h` `GetDouble` (doubles, int32 and int64 accepted). -/
def getDoubleP (m : Params) (k : String) (dflt : ℚ) : ℚ :=
  match lookupP m k with
  | some (.num v) => v
  | some (.int v) => (v : ℚ)
  | _ => dflt

/-- Model of `param_helpers.h` `GetBool`. -/
def getBoolP (m : Params) (k : String) (dflt : Bool) : Bool :=
  match lookupP m k with
  | some (.bool v) => v
  | _ => dflt

/-- Lookup in a string-keyed associative container
(`std::unordered_map::find`). -/
def findKey {α : Type} (m : List (String × α)) (k : String) : Option α :=
  match m with
  | [] => none
  | (k', v) :: rest => if k' = k then some v else findKey rest k

/-- Model of `map.erase(key)`: drop the entries with the given key. -/
def eraseKey {α : Type} (m : List (String × α)) (k : String) : List (String × α) :=
  m.filter (fun kv => kv.1 ≠ k)

/-- Model of `map[key] = value`: overwrite the existing entry in place, or append. -/
def insertKey {α : Type} (m : List (String × α)) (k : String) (v : α) : List (String × α) :=
  match m with
  | [] => [(k, v)]
  | (k', v') :: rest => if k' = k then (k, v) :: rest else (k', v') :: insertKey rest k v

/-! ## Dock/Snap Engine data model (`snap_service.h`) -/

/-- Model of `SnapBinding`. -/
structure SnapBinding where
  followerId : String
  targetId : String
  followerEdge : String
  targetEdge : String
  alignment : String
  gap : ℚ
  onTargetHidden : String
  onTargetDestroyed : String
  deriving DecidableEq, Repr

/-- Model of `AutoSnapConfig`. The C++ struct stores the edge sets in
`std::unordered_set`s; these are modelled as lists (the code only tests
emptiness, membership and iterates — iteration order of the C++ container
is unspecified anyway). -/
structure AutoSnapConfig where
  canSnapFrom : List String
  acceptsSnapOn : List String
  targetIds : List String
  proximityThreshold : ℚ
  showFeedback : Bool
  deriving DecidableEq, Repr

/-- Model of `ProximityState`. -/
structure ProximityState where
  draggedId : String
  targetId : String
  draggedEdge : String
  targetEdge : String
  deriving DecidableEq, Repr

/-- The mutable fields of `SnapService`. -/
structure SnapState where
  bindings : List (String × SnapBinding)
  autoSnapConfigs : List (String × AutoSnapConfig)
  proximity : Option ProximityState
  deriving DecidableEq, Repr

/-- Events pushed through the snap service's `event_sink_`. -/
inductive SnapEvent where
  | snapped (windowId targetId : String)
  | detached (windowId : String)
  | proximityEntered (windowId targetId draggedEdge targetEdge : String) (distance : ℚ)
  | proximityUpdated (windowId targetId : String) (distance : ℚ)
  | proximityExited (windowId targetId : String)
  deriving DecidableEq, Repr

/-- Window-manipulation effects issued by the snap service:
`SetWindowPos(..., SWP_NOSIZE | ...)` and `SetParent(hwnd, NULL)`. -/
inductive WinEff where
  | move (windowId : String) (x y : Int)
  | clearParent (windowId : String)
  deriving DecidableEq, Repr

/-- Outcome reported through `MethodResult`: `Success()` with no payload,
a numeric payload, a boolean payload, or `Error(code, ...)`.
`okHypotDist sq scale` stands for the `GetSnapDistance` success payload
`PhysicalToLogical(std::hypot(dx, dy), scale)`, i.e. the real number
`√sq / scale` (or `√sq` when `scale ≤ 0`), kept symbolic because the
square root of a rational is not rational. -/
inductive CmdResult where
  | ok
  | okNum (v : ℚ)
  | okHypotDist (sq : ℚ) (scale : ℚ)
  | okBool (b : Bool)
  | err (code : String)
  deriving DecidableEq, Repr

/-- The full outcome of one snap-service entry point. -/
structure SnapOut where
  state : SnapState
  effs : List WinEff
  events : List SnapEvent
  result : CmdResult
  deriving DecidableEq, Repr

namespace SnapService

/-- Model of `SnapService::CalculateSnapPosition`. Returns `(0, 0)` when either
window is unknown or has a null handle. `/` on the cross-axis is C++
integer division (truncation toward zero, `Int.tdiv`). -/
def calculateSnapPosition (env : Env) (b : SnapBinding) : Int × Int :=
  match env b.followerId, env b.targetId with
  | some f, some t =>
    if f.hasHwnd && t.hasHwnd then
      let tr := t.rect
      let fr := f.rect
      let fw := fr.right - fr.left
      let fh := fr.bottom - fr.top
      let tw := tr.right - tr.left
      let th := tr.bottom - tr.top
      let gap := logicalToPhysical b.gap t.scale
      let fe := b.followerEdge
      let te := b.targetEdge
      let y0 : Int :=
        if fe = "top" ∧ te = "bottom" then tr.bottom + gap
        else if fe = "bottom" ∧ te = "top" then tr.top - fh - gap
        else 0
      let x0 : Int :=
        if fe = "left" ∧ te = "right" then tr.right + gap
        else if fe = "right" ∧ te = "left" then tr.left - fw - gap
        else 0
      if fe = "top" ∨ fe = "bottom" then
        let nx :=
          if b.alignment = "leading" then tr.left
          else if b.alignment = "trailing" then tr.right - fw
          else tr.left + Int.tdiv (tw - fw) 2
        (nx, y0)
      else
        let ny :=
          if b.alignment = "leading" then tr.top
          else if b.alignment = "trailing" then tr.bottom - fh
          else tr.top + Int.tdiv (th - fh) 2
        (x0, ny)
    else (0, 0)
  | _, _ => (0, 0)

/-- Model of `SnapService::PositionFollower`: silently does nothing when the
follower is unknown or has a null handle, otherwise issues a move-only
`SetWindowPos` to the computed snap position. -/
def positionFollower (env : Env) (b : SnapBinding) : List WinEff :=
  match env b.followerId with
  | some f =>
    if f.hasHwnd then
      let p := calculateSnapPosition env b
      [.move b.followerId p.1 p.2]
    else []
  | none => []

/-- Model of `SnapService::OnWindowDestroyed`: erase the binding keyed by `id`,
erase every binding targeting `id`, drop the auto-snap config, and clear
the proximity state when it references `id` on either side. -/
def onWindowDestroyed (s : SnapState) (id : String) : SnapState :=
  let bs := eraseKey s.bindings id
  let bs := bs.filter (fun kv => kv.2.targetId ≠ id)
  let cfgs := eraseKey s.autoSnapConfigs id
  let prox :=
    match s.proximity with
    | some p => if p.draggedId = id ∨ p.targetId = id then none else some p
    | none => none
  ⟨bs, cfgs, prox⟩

/-- Model of `SnapService::AreCompatibleEdges`. -/
def areCompatibleEdges (dragEdge targetEdge : String) : Bool :=
  (dragEdge = "top" ∧ targetEdge = "bottom") ∨
  (dragEdge = "bottom" ∧ targetEdge = "top") ∨
  (dragEdge = "left" ∧ targetEdge = "right") ∨
  (dragEdge = "right" ∧ targetEdge = "left")

/-- The `1e9` "ineligible" distance of `CalculateEdgeDistance`. -/
def farAway : ℚ := 1000000000

/-- Model of `SnapService::CalculateEdgeDistance`: require perpendicular-axis
overlap, then the absolute edge-to-edge distance on the constrained axis;
`1e9` otherwise. -/
def calculateEdgeDistance (dragged : Rect) (draggedEdge : String)
    (target : Rect) (targetEdge : String) : ℚ :=
  let overlapOk : Bool :=
    if draggedEdge = "top" ∨ draggedEdge = "bottom" then
      0 < min dragged.right target.right - max dragged.left target.left
    else
      0 < min dragged.bottom target.bottom - max dragged.top target.top
  if !overlapOk then farAway
  else if draggedEdge = "top" ∧ targetEdge = "bottom" then
    |((dragged.top - target.bottom : Int) : ℚ)|
  else if draggedEdge = "bottom" ∧ targetEdge = "top" then
    |((dragged.bottom - target.top : Int) : ℚ)|
  else if draggedEdge = "left" ∧ targetEdge = "right" then
    |((dragged.left - target.right : Int) : ℚ)|
  else if draggedEdge = "right" ∧ targetEdge = "left" then
    |((dragged.right - target.left : Int) : ℚ)|
  else farAway

/-- The best-candidate record accumulated by `CheckProximity`'s search. -/
structure BestMatch where
  targetId : String
  draggedEdge : String
  targetEdge : String
  distance : ℚ
  deriving DecidableEq, Repr

/-- The candidate-search loops of `SnapService::CheckProximity`: iterate
over every configured window (skipping self, targets with no accepting
edges, targets excluded by the allow-list, targets already following the
dragged window, and unknown/invisible targets), and over every compatible
edge pair, keeping the strictly smallest distance below the DPI-scaled
threshold; the first minimum encountered wins ties. -/
def bestMatch (env : Env) (s : SnapState) (dragConfig : AutoSnapConfig)
    (draggedId : String) (frame : Rect) : Option BestMatch :=
  s.autoSnapConfigs.foldl (fun best tc =>
    let targetId := tc.1
    let targetConfig := tc.2
    if targetId = draggedId then best
    else if targetConfig.acceptsSnapOn.isEmpty then best
    else if dragConfig.targetIds ≠ [] ∧ targetId ∉ dragConfig.targetIds then best
    else if (match findKey s.bindings targetId with
             | some b => b.targetId == draggedId
             | none => false) then best
    else
      match env targetId with
      | none => best
      | some w =>
        if !w.hasHwnd then best
        else if !w.visible then best
        else
          let physicalThreshold := dragConfig.proximityThreshold * w.scale
          dragConfig.canSnapFrom.foldl (fun best dragEdge =>
            targetConfig.acceptsSnapOn.foldl (fun best targetEdge =>
              if areCompatibleEdges dragEdge targetEdge then
                let dist := calculateEdgeDistance frame dragEdge w.rect targetEdge
                if dist < physicalThreshold then
                  match best with
                  | none => some ⟨targetId, dragEdge, targetEdge, dist⟩
                  | some bm =>
                    if dist < bm.distance then
                      some ⟨targetId, dragEdge, targetEdge, dist⟩
                    else best
                else best
              else best) best) best) none

/-- The shared "clear proximity state for this dragged window, emitting
`proximityExited`" path of `CheckProximity`. -/
def clearProximityFor (s : SnapState) (draggedId : String) :
    SnapState × List SnapEvent :=
  match s.proximity with
  | some p =>
    if p.draggedId = draggedId then
      ({ s with proximity := none }, [.proximityExited draggedId p.targetId])
    else (s, [])
  | none => (s, [])

/-- Model of `SnapService::CheckProximity`. -/
def checkProximity (env : Env) (s : SnapState) (draggedId : String)
    (frame : Rect) : SnapState × List SnapEvent :=
  match findKey s.autoSnapConfigs draggedId with
  | none => clearProximityFor s draggedId
  | some dragConfig =>
    if dragConfig.canSnapFrom.isEmpty then clearProximityFor s draggedId
    else
      match bestMatch env s dragConfig draggedId frame with
      | some m =>
        let changed : Bool :=
          match s.proximity with
          | none => true
          | some p =>
            p.targetId != m.targetId || p.draggedEdge != m.draggedEdge ||
              p.targetEdge != m.targetEdge
        if changed then
          let exitEvents :=
            match s.proximity with
            | some p => [SnapEvent.proximityExited draggedId p.targetId]
            | none => []
          let newProx : ProximityState :=
            ⟨draggedId, m.targetId, m.draggedEdge, m.targetEdge⟩
          ({ s with proximity := some newProx },
           exitEvents ++
             [.proximityEntered draggedId m.targetId m.draggedEdge
               m.targetEdge m.distance])
        else (s, [.proximityUpdated draggedId m.targetId m.distance])
      | none => clearProximityFor s draggedId

/-- Model of `SnapService::DragMoved`: reposition every follower bound to the
dragged window, then run proximity detection when the dragged window
itself is unbound. -/
def dragMoved (env : Env) (s : SnapState) (id : String) (frame : Rect) :
    SnapState × List WinEff × List SnapEvent :=
  let effs :=
    ((s.bindings.filter (fun kv => kv.2.targetId = id)).map
      (fun kv => positionFollower env kv.2)).flatten
  if findKey s.bindings id = none then
    let r := checkProximity env s id frame
    (r.1, effs, r.2)
  else (s, effs, [])

/-- Model of `SnapService::Snap` (the `snap` command). Only the emptiness of the
ids is validated — the directory is never consulted before the binding is
stored and the `snapped` event emitted. -/
def snap (env : Env) (s : SnapState) (params : Params) : SnapOut :=
  let followerId := getStringP params "followerId" ""
  let targetId := getStringP params "targetId" ""
  if followerId = "" ∨ targetId = "" then ⟨s, [], [], .err "INVALID_PARAMS"⟩
  else
    let followerEdge := getStringP params "followerEdge" "top"
    let targetEdge := getStringP params "targetEdge" "bottom"
    let alignment := getStringP params "alignment" "center"
    let gap := getDoubleP params "gap" 0
    let hiddenDestroyed :=
      match lookupP params "config" with
      | some (.map config) =>
        (getStringP config "onTargetHidden" "hideFollower",
         getStringP config "onTargetDestroyed" "hideAndDetach")
      | _ => ("hideFollower", "hideAndDetach")
    let b : SnapBinding :=
      ⟨followerId, targetId, followerEdge, targetEdge, alignment, gap,
       hiddenDestroyed.1, hiddenDestroyed.2⟩
    ⟨{ s with bindings := insertKey s.bindings followerId b },
     positionFollower env b,
     [.snapped followerId targetId],
     .ok⟩

/-- Model of `SnapService::Detach`. -/
def detach (env : Env) (s : SnapState) (params : Params) : SnapOut :=
  let followerId := getStringP params "followerId" ""
  if followerId = "" then ⟨s, [], [], .err "INVALID_PARAMS"⟩
  else
    match findKey s.bindings followerId with
    | some _ =>
      let effs :=
        match env followerId with
        | some w => if w.hasHwnd then [WinEff.clearParent followerId] else []
        | none => []
      ⟨{ s with bindings := eraseKey s.bindings followerId }, effs,
       [.detached followerId], .ok⟩
    | none => ⟨s, [], [], .ok⟩

/-- Model of `SnapService::ReSnap`. -/
def reSnap (env : Env) (s : SnapState) (params : Params) : SnapOut :=
  let followerId := getStringP params "followerId" ""
  if followerId = "" then ⟨s, [], [], .err "INVALID_PARAMS"⟩
  else
    match findKey s.bindings followerId with
    | none => ⟨s, [], [], .err "NOT_FOUND"⟩
    | some b =>
      ⟨s, positionFollower env b, [.snapped followerId b.targetId], .ok⟩

/-- Model of `SnapService::GetSnapDistance`: `Success(0.0)` when the follower id is
missing, unbound, or the follower window is unknown; otherwise the
Euclidean distance from the current position to the computed snap
position, converted back to logical pixels (see `CmdResult.okHypotDist`). -/
def getSnapDistance (env : Env) (s : SnapState) (params : Params) : SnapOut :=
  let followerId := getStringP params "followerId" ""
  if followerId = "" then ⟨s, [], [], .okNum 0⟩
  else
    match findKey s.bindings followerId with
    | none => ⟨s, [], [], .okNum 0⟩
    | some b =>
      match env b.followerId with
      | none => ⟨s, [], [], .okNum 0⟩
      | some f =>
        if !f.hasHwnd then ⟨s, [], [], .okNum 0⟩
        else
          let pos := calculateSnapPosition env b
          let dx : ℚ := ((pos.1 - f.rect.left : Int) : ℚ)
          let dy : ℚ := ((pos.2 - f.rect.top : Int) : ℚ)
          ⟨s, [], [], .okHypotDist (dx ^ 2 + dy ^ 2) f.scale⟩

/-- The `read_string_set` helper of `SnapService::SetAutoSnapConfig`: read
a list-valued key, keeping only the string entries. -/
def readStringSet (m : Params) (k : String) : List String :=
  match lookupP m k with
  | some (.list vs) =>
    vs.filterMap (fun v => match v with | .str x => some x | _ => none)
  | _ => []

/-- Model of `SnapService::SetAutoSnapConfig`. When the `config` parameter is
absent or not a map, nothing is changed; a config with both edge sets
empty erases the stored config; otherwise the config is stored. -/
def setAutoSnapConfig (_env : Env) (s : SnapState) (params : Params) : SnapOut :=
  let paletteId := getStringP params "paletteId" ""
  if paletteId = "" then ⟨s, [], [], .err "INVALID_PARAMS"⟩
  else
    match lookupP params "config" with
    | some (.map configMap) =>
      let canSnapFrom := readStringSet configMap "canSnapFrom"
      let acceptsSnapOn := readStringSet configMap "acceptsSnapOn"
      if canSnapFrom.isEmpty ∧ acceptsSnapOn.isEmpty then
        ⟨{ s with autoSnapConfigs := eraseKey s.autoSnapConfigs paletteId },
         [], [], .ok⟩
      else
        let cfg : AutoSnapConfig :=
          ⟨canSnapFrom, acceptsSnapOn, readStringSet configMap "targetIds",
           getDoubleP configMap "proximityThreshold" 50,
           getBoolP configMap "showFeedback" true⟩
        ⟨{ s with autoSnapConfigs := insertKey s.autoSnapConfigs paletteId cfg },
         [], [], .ok⟩
    | _ => ⟨s, [], [], .ok⟩

/-- Model of `SnapService::Handle`: dispatch on the command name; unknown command
names are rejected with `UNKNOWN_COMMAND`. The envelope window id is
ignored for snap commands. -/
def handle (env : Env) (s : SnapState) (command : String) (params : Params) :
    SnapOut :=
  if command = "snap" then snap env s params
  else if command = "detach" then detach env s params
  else if command = "reSnap" then reSnap env s params
  else if command = "getSnapDistance" then getSnapDistance env s params
  else if command = "setAutoSnapConfig" then setAutoSnapConfig env s params
  else ⟨s, [], [], .err "UNKNOWN_COMMAND"⟩

end SnapService

/-! ## Drag Lifecycle Coordinator (`drag_coordinator.cpp`) -/

/-- The mutable fields of `DragCoordinator`. `dragHwnd` holds the id of the
window whose `HWND` is stored in `drag_hwnd_` (handles are modelled by the
owning window's id). -/
structure DragState where
  activeDragId : String
  isDragging : Bool
  dragStartMouse : Point
  dragStartWindow : Point
  dragHwnd : Option String
  deriving DecidableEq, Repr

/-- Effects of the drag coordinator: pointer capture, window subclassing,
move-only `SetWindowPos`, and the three delegate notifications. -/
inductive DragEff where
  | captured (windowId : String)
  | subclassed (windowId : String)
  | releasedCapture
  | removedSubclass (windowId : String)
  | moveWindow (windowId : String) (x y : Int)
  | notifyBegan (windowId : String)
  | notifyMoved (windowId : String) (frame : Rect)
  | notifyEnded (windowId : String) (frame : Rect)
  deriving DecidableEq, Repr

namespace DragCoordinator

/-- Model of `DragCoordinator::StartDrag`: a no-op when the window is unknown, has
a null handle, or a drag session is already active; otherwise records the
cursor and window start positions, captures the pointer, subclasses the
window and notifies `DragBegan`. -/
def startDrag (s : DragState) (cursor : Point) (id : String)
    (window : Option WinInfo) : DragState × List DragEff :=
  match window with
  | none => (s, [])
  | some w =>
    if !w.hasHwnd then (s, [])
    else if s.isDragging then (s, [])
    else
      (⟨id, true, cursor, ⟨w.rect.left, w.rect.top⟩, some id⟩,
       [.captured id, .subclassed id, .notifyBegan id])

/-- Model of `DragCoordinator::OnMouseMove`: while dragging, reposition the dragged
window to `start_window + (cursor - start_mouse)` with a move-only
`SetWindowPos` (`SWP_NOSIZE`), then notify the delegate's `DragMoved` with
the window's new frame. `rect` is the window's frame before the move; the
frame reread by `GetWindowRect` after the move-only reposition is the same
rectangle translated to the new origin. -/
def onMouseMove (s : DragState) (rect : Rect) (cursor : Point) :
    DragState × List DragEff :=
  if !s.isDragging then (s, [])
  else
    let nx := s.dragStartWindow.x + (cursor.x - s.dragStartMouse.x)
    let ny := s.dragStartWindow.y + (cursor.y - s.dragStartMouse.y)
    let newFrame : Rect :=
      ⟨nx, ny, nx + (rect.right - rect.left), ny + (rect.bottom - rect.top)⟩
    (s, [.moveWindow s.activeDragId nx ny,
         .notifyMoved s.activeDragId newFrame])

/-- Model of `DragCoordinator::OnMouseUp` (also the capture-loss path): release
capture, remove the subclass, leave `Dragging`, notify `DragEnded` with
the final frame. -/
def onMouseUp (s : DragState) (rect : Rect) : DragState × List DragEff :=
  if !s.isDragging then (s, [])
  else
    ({ s with isDragging := false, dragHwnd := none },
     [.releasedCapture, .removedSubclass s.activeDragId,
      .notifyEnded s.activeDragId rect])

end DragCoordinator

/-! ## Animation Interpolator (`animation_service.cpp`) -/

/-- Model of `ActiveAnimation` (header `animation_service.h`): one in-flight
property animation. `startTime` is a `GetTickCount64` millisecond stamp. -/
structure ActiveAnimation where
  windowId : String
  property : String
  fromValue : ℚ
  toValue : ℚ
  durationMs : ℚ
  easing : String
  startTime : ℕ
  deriving DecidableEq, Repr

/-- The mutable fields of `AnimationService`: the animation table keyed by
`windowId ++ ":" ++ property`, and whether the 16 ms timer is running. -/
structure AnimState where
  animations : List (String × ActiveAnimation)
  timerOn : Bool
  deriving DecidableEq, Repr

/-- The `complete` event emitted through the animation `event_sink_`. -/
inductive AnimEvent where
  | complete (windowId property : String)
  deriving DecidableEq, Repr

/-- A property write performed by `AnimationService::ApplyValue`. The real
function converts the logical value to physical pixels and issues
`SetWindowPos` (move-only for `x`/`y`, resize-only for `width`/`height`)
or `SetLayeredWindowAttributes` for `opacity`; the effect records the
window, the property and the logical value written. -/
inductive AnimEff where
  | apply (windowId property : String) (value : ℚ)
  deriving DecidableEq, Repr

namespace AnimationService

/-- Model of `AnimationService::ApplyEasing`, with `t` clamped to `[0,1]` first. -/
def applyEasing (t : ℚ) (easing : String) : ℚ :=
  if t ≤ 0 then 0
  else if 1 ≤ t then 1
  else if easing = "easeIn" then t * t
  else if easing = "easeOut" then 1 - (1 - t) * (1 - t)
  else if easing = "easeInOut" then
    if t < 1/2 then 4 * t ^ 3
    else
      let f := 2 * t - 2
      (1/2) * f ^ 3 + 1
  else t

/-- Model of `AnimationService::ApplyValue`: no effect when the window is unknown
or has a null handle. -/
def applyValue (env : Env) (windowId property : String) (value : ℚ) :
    List AnimEff :=
  match env windowId with
  | some w => if w.hasHwnd then [.apply windowId property value] else []
  | none => []

/-- The completion test `t >= 1.0` of `AnimationService::Tick` with
`t = elapsed / duration` on doubles, expressed without infinities:
a positive duration completes once `elapsed` reaches it; a zero duration
completes once `elapsed` is positive (`t` is `+inf`; at `elapsed = 0` the
double quotient is NaN and compares false); a negative duration never
completes. -/
def animCompletes (a : ActiveAnimation) (now : ℕ) : Bool :=
  let elapsed : ℚ := ((now - a.startTime : ℕ) : ℚ)
  if 0 < a.durationMs then a.durationMs ≤ elapsed
  else if a.durationMs = 0 then 0 < elapsed
  else false

/-- The interpolated value applied by a non-completing tick:
`from + (to - from) * ease(elapsed / duration)`. (`ℚ` division by zero is
`0`; that branch corresponds to the NaN corner `elapsed = duration = 0`.) -/
def tickValue (a : ActiveAnimation) (now : ℕ) : ℚ :=
  let elapsed : ℚ := ((now - a.startTime : ℕ) : ℚ)
  let t := elapsed / a.durationMs
  a.fromValue + (a.toValue - a.fromValue) * applyEasing t a.easing

/-- The second phase of `AnimationService::Tick`: for each completed key in
order, look it up, erase it and emit one `complete` event carrying the
entry's window id and property name. -/
def removeCompleted (completed : List String)
    (anims : List (String × ActiveAnimation)) :
    List (String × ActiveAnimation) × List AnimEvent :=
  completed.foldl (fun acc k =>
    match findKey acc.1 k with
    | some a => (eraseKey acc.1 k, acc.2 ++ [AnimEvent.complete a.windowId a.property])
    | none => (acc.1, acc.2)) (anims, [])

/-- Model of `AnimationService::Tick`: apply the exact `to` value to every
completed animation and the eased interpolant to every live one, then
remove completed entries (emitting `complete` events) and stop the timer
once the table is empty. -/
def tick (env : Env) (s : AnimState) (now : ℕ) :
    AnimState × List AnimEff × List AnimEvent :=
  let effs := (s.animations.map (fun kv =>
    if animCompletes kv.2 now then
      applyValue env kv.2.windowId kv.2.property kv.2.toValue
    else
      applyValue env kv.2.windowId kv.2.property (tickValue kv.2 now))).flatten
  let completed :=
    (s.animations.filter (fun kv => animCompletes kv.2 now)).map (fun kv => kv.1)
  let r := removeCompleted completed s.animations
  ({ animations := r.1,
     timerOn := if r.1.isEmpty then false else s.timerOn },
   effs, r.2)

/-- Model of `AnimationService::Animate`: reject a missing envelope window id with
`MISSING_ID` and an unknown window (or null handle) with `NOT_FOUND`;
otherwise read the parameters, default `from` to the window's current
logical value for the property, store the animation under
`windowId ++ ":" ++ property` (overwriting any prior animation on that
key) and ensure the timer runs. -/
def animate (env : Env) (now : ℕ) (s : AnimState) (windowId : Option String)
    (params : Params) : AnimState × CmdResult :=
  match windowId with
  | none => (s, .err "MISSING_ID")
  | some wid =>
    match env wid with
    | none => (s, .err "NOT_FOUND")
    | some w =>
      if !w.hasHwnd then (s, .err "NOT_FOUND")
      else
        let property := getStringP params "property" ""
        let toValue := getDoubleP params "to" 0
        let duration := getDoubleP params "duration" 300
        let easing := getStringP params "easing" "easeInOut"
        let fromDefault : ℚ :=
          if property = "x" then physicalToLogical (w.rect.left : ℚ) w.scale
          else if property = "y" then physicalToLogical (w.rect.top : ℚ) w.scale
          else if property = "width" then
            physicalToLogical ((w.rect.right - w.rect.left : Int) : ℚ) w.scale
          else if property = "height" then
            physicalToLogical ((w.rect.bottom - w.rect.top : Int) : ℚ) w.scale
          else if property = "opacity" then w.opacity
          else 0
        let fromValue := getDoubleP params "from" fromDefault
        let anim : ActiveAnimation :=
          ⟨wid, property, fromValue, toValue, duration, easing, now⟩
        let key := wid ++ ":" ++ property
        ({ animations := insertKey s.animations key anim, timerOn := true }, .ok)

/-- Model of `AnimationService::AnimateMultiple`: requires the envelope window id
and a list-valued `animations` parameter, then issues one `Animate` per
map-shaped entry with a discarded `MethodResult` (non-map entries are
skipped, constituent errors vanish) and reports `Success` itself. -/
def animateMultiple (env : Env) (now : ℕ) (s : AnimState)
    (windowId : Option String) (params : Params) : AnimState × CmdResult :=
  match windowId with
  | none => (s, .err "MISSING_ID")
  | some _ =>
    match lookupP params "animations" with
    | some (.list items) =>
      let s' := items.foldl (fun st item =>
        match item with
        | .map m => (animate env now st windowId m).1
        | _ => st) s
      (s', .ok)
    | _ => (s, .err "INVALID_PARAMS")

/-- Model of `AnimationService::Stop`: remove every animation of the window, stop
the timer when the table became empty. -/
def stop (s : AnimState) (windowId : Option String) : AnimState × CmdResult :=
  match windowId with
  | none => (s, .err "MISSING_ID")
  | some wid =>
    let anims := s.animations.filter (fun kv => kv.2.windowId ≠ wid)
    ({ animations := anims,
       timerOn := if anims.isEmpty then false else s.timerOn }, .ok)

/-- Model of `AnimationService::StopAll`. -/
def stopAll (_s : AnimState) : AnimState × CmdResult :=
  ((⟨[], false⟩ : AnimState), .ok)

/-- Model of `AnimationService::IsAnimating`: `Success(false)` when the window id is
missing, otherwise whether any key of that window is active. -/
def isAnimating (s : AnimState) (windowId : Option String) : CmdResult :=
  match windowId with
  | none => .okBool false
  | some wid => .okBool (s.animations.any (fun kv => kv.2.windowId == wid))

/-- Model of `AnimationService::Handle`: dispatch on the command name; unknown
command names are rejected with `UNKNOWN_COMMAND`. -/
def handle (env : Env) (now : ℕ) (s : AnimState) (command : String)
    (windowId : Option String) (params : Params) : AnimState × CmdResult :=
  if command = "animate" then animate env now s windowId params
  else if command = "animateMultiple" then animateMultiple env now s windowId params
  else if command = "stop" then stop s windowId
  else if command = "stopAll" then stopAll s
  else if command = "isAnimating" then (s, isAnimating s windowId)
  else (s, .err "UNKNOWN_COMMAND")

end AnimationService

/-! ## Derived predicates and concrete inputs used by the theorems -/

/-- Whether the snap engine state still references window `id` anywhere a
stale reference could matter: as the follower or the target of a binding,
or on either side of the proximity state. -/
def referencesWindow (s : SnapState) (id : String) : Bool :=
  s.bindings.any (fun kv => kv.1 == id || kv.2.targetId == id) ||
    (match s.proximity with
     | some p => p.draggedId == id || p.targetId == id
     | none => false)

/-- Well-formedness invariant of the animation table maintained by
`AnimationService`: keys are unique and every entry is stored under
`windowId ++ ":" ++ property`. -/
def wfAnims (l : List (String × ActiveAnimation)) : Prop :=
  (l.map Prod.fst).Nodup ∧
    ∀ kv ∈ l, kv.1 = kv.2.windowId ++ ":" ++ kv.2.property

/-- Whether an `EncodableValue` holds a map. -/
def isMapEnc (v : EncVal) : Bool :=
  match v with
  | .map _ => true
  | _ => false

/-- The `ActiveAnimation` record a successful `Animate` call stores
(`animation_service.cpp` lines 181-208): it depends only on the window's
current geometry/opacity, the parameters and the tick stamp — not on the
prior animation table. `animate_some` below proves `animate` stores
exactly this record. -/
def builtAnim (now : ℕ) (wid : String) (params : Params) (w : WinInfo) :
    ActiveAnimation :=
  let property := getStringP params "property" ""
  let fromDefault : ℚ :=
    if property = "x" then physicalToLogical (w.rect.left : ℚ) w.scale
    else if property = "y" then physicalToLogical (w.rect.top : ℚ) w.scale
    else if property = "width" then
      physicalToLogical ((w.rect.right - w.rect.left : Int) : ℚ) w.scale
    else if property = "height" then
      physicalToLogical ((w.rect.bottom - w.rect.top : Int) : ℚ) w.scale
    else if property = "opacity" then w.opacity
    else 0
  ⟨wid, property, getDoubleP params "from" fromDefault,
   getDoubleP params "to" 0, getDoubleP params "duration" 300,
   getStringP params "easing" "easeInOut", now⟩

/-- An empty window directory: no window is registered. -/
def env0 : Env := fun _ => none

/-- The empty snap-engine state. -/
def snapState0 : SnapState := ⟨[], [], none⟩

/-- The empty animation-service state. -/
def animState0 : AnimState := ⟨[], false⟩

/-- A `snap` command naming two ids that are unknown to the directory. -/
def snapUnknownParams : Params := [("followerId", .str "f"), ("targetId", .str "t")]

/-- An auto-snap config declaring usable edges. -/
def autoCfg0 : AutoSnapConfig := ⟨["top"], ["bottom"], [], 50, true⟩

/-- A snap state in which window `"w"` has an auto-snap config installed. -/
def snapStateCfg : SnapState := ⟨[], [("w", autoCfg0)], none⟩

/-- A `setAutoSnapConfig` command whose `config` parameter is null. -/
def nullConfigParams : Params := [("paletteId", .str "w"), ("config", .null)]

/-- The 50×50 follower window of the spec's snap-position example. -/
def fWin : WinInfo := ⟨true, ⟨0, 0, 50, 50⟩, true, 1, 1⟩

/-- The target window at `(100,100,200,150)` (x,y,w,h) of the spec's
snap-position example, as a Win32 rect. -/
def tWin : WinInfo := ⟨true, ⟨100, 100, 300, 250⟩, true, 1, 1⟩

/-- A directory holding the two windows of the snap-position example. -/
def envC4 : Env := fun id =>
  if id = "f" then some fWin else if id = "t" then some tWin else none

/-- The binding of the spec's snap-position example:
`{followerEdge: top, targetEdge: bottom, alignment: center, gap: 4}`. -/
def bindC4 : SnapBinding :=
  ⟨"f", "t", "top", "bottom", "center", 4, "hideFollower", "hideAndDetach"⟩

/-- An `animateMultiple` parameter map whose `animations` list mixes a
non-map entry with a well-formed animation map. -/
def animMultiParams : Params :=
  [("animations", .list [.int 3, .map [("property", .str "x"), ("to", .num 10)]])]

/-- Auto-snap config of the dragged window in the proximity example: may
snap from its bottom edge, threshold 50. -/
def dragCfgW : AutoSnapConfig := ⟨["bottom"], [], [], 50, true⟩

/-- Auto-snap config of the target window in the proximity example:
accepts snaps on its top edge. -/
def targetCfgW : AutoSnapConfig := ⟨[], ["top"], [], 50, true⟩

/-- The visible target window of the proximity example, at scale 1. -/
def targetWin : WinInfo := ⟨true, ⟨0, 100, 200, 160⟩, true, 1, 1⟩

/-- Directory of the proximity example: only the target is registered. -/
def envProx : Env := fun id => if id = "T" then some targetWin else none

/-- Snap state of the proximity example: both windows configured, no
binding, no proximity state. -/
def snapStateProx : SnapState :=
  ⟨[], [("D", dragCfgW), ("T", targetCfgW)], none⟩

/-- Frame of the dragged window: its bottom edge is 40 physical pixels
above the target's top edge, with full horizontal overlap. -/
def dragFrame : Rect := ⟨0, 0, 100, 60⟩

/-- First animation of the overwrite example: `x` to 10 over 100 ms. -/
def animParams1 : Params :=
  [("property", .str "x"), ("to", .num 10), ("duration", .num 100)]

/-- Second animation of the overwrite example: `x` to 20 over 100 ms. -/
def animParams2 : Params :=
  [("property", .str "x"), ("to", .num 20), ("duration", .num 100)]

/-- The animated window of the overwrite example. -/
def wWin : WinInfo := ⟨true, ⟨0, 0, 100, 100⟩, true, 1, 1⟩

/-- Directory of the overwrite example. -/
def envW : Env := fun id => if id = "w" then some wWin else none

/-! ## Associative-list lemmas -/

theorem findKey_insertKey_self {α : Type} (m : List (String × α)) (k : String) (v : α) :
    findKey (insertKey m k v) k = some v := by
  induction m with
  | nil => simp [insertKey, findKey]
  | cons kv rest ih =>
    obtain ⟨k1, v1⟩ := kv
    by_cases h : k1 = k
    · subst h
      simp [insertKey, findKey]
    · simpa [insertKey, h, findKey] using ih

theorem findKey_insertKey_ne {α : Type} (m : List (String × α)) (k k' : String) (v : α)
    (h : k ≠ k') : findKey (insertKey m k v) k' = findKey m k' := by
  induction m with
  | nil => simp [insertKey, findKey, h]
  | cons kv rest ih =>
    obtain ⟨k1, v1⟩ := kv
    by_cases hk : k1 = k
    · subst hk
      simp [insertKey, findKey, h]
    · by_cases hk' : k1 = k'
      · subst hk'
        simp [insertKey, hk, findKey]
      · simpa [insertKey, hk, findKey, hk'] using ih

theorem insertKey_insertKey {α : Type} (m : List (String × α)) (k : String) (v1 v2 : α) :
    insertKey (insertKey m k v1) k v2 = insertKey m k v2 := by
  induction m with
  | nil => simp [insertKey]
  | cons kv rest ih =>
    obtain ⟨k1, w⟩ := kv
    by_cases h : k1 = k
    · subst h
      simp [insertKey]
    · simp [insertKey, h, ih]

theorem findKey_eraseKey_self {α : Type} (m : List (String × α)) (k : String) :
    findKey (eraseKey m k) k = none := by
  induction m with
  | nil => simp [eraseKey, findKey]
  | cons kv rest ih =>
    obtain ⟨k1, v1⟩ := kv
    by_cases h : k1 = k
    · simpa [eraseKey, List.filter_cons, h] using ih
    · simpa [eraseKey, List.filter_cons, h, findKey] using ih

theorem findKey_eraseKey_ne {α : Type} (m : List (String × α)) (k k' : String)
    (h : k' ≠ k) : findKey (eraseKey m k) k' = findKey m k' := by
  induction m with
  | nil => simp [eraseKey, findKey]
  | cons kv rest ih =>
    obtain ⟨k1, v1⟩ := kv
    by_cases hk : k1 = k
    · subst hk
      have hne : ¬k1 = k' := fun hh => h (hh ▸ rfl)
      simpa [eraseKey, List.filter_cons, findKey, hne] using ih
    · by_cases hk' : k1 = k'
      · subst hk'
        simp [eraseKey, List.filter_cons, hk, findKey]
      · simpa [eraseKey, List.filter_cons, hk, findKey, hk'] using ih

theorem eraseKey_of_findKey_none {α : Type} (m : List (String × α)) (k : String)
    (h : findKey m k = none) : eraseKey m k = m := by
  induction m with
  | nil => simp [eraseKey]
  | cons kv rest ih =>
    obtain ⟨k1, v1⟩ := kv
    by_cases hk : k1 = k
    · simp [findKey, hk] at h
    · simp only [findKey, hk, if_false] at h
      have hrest : List.filter (fun kv => decide (kv.1 ≠ k)) rest = rest := by
        simpa [eraseKey] using ih h
      simp only [eraseKey, List.filter_cons]
      rw [if_pos (by simp [hk]), hrest]

theorem findKey_some_mem {α : Type} {m : List (String × α)} {k : String} {v : α}
    (h : findKey m k = some v) : (k, v) ∈ m := by
  induction m with
  | nil => simp [findKey] at h
  | cons kv rest ih =>
    obtain ⟨k1, v1⟩ := kv
    by_cases hk : k1 = k
    · subst hk
      have hv : v1 = v := by simpa [findKey] using h
      subst hv
      exact List.mem_cons_self _ _
    · simp only [findKey, hk, if_false] at h
      exact List.mem_cons_of_mem _ (ih h)

theorem findKey_eq_none_iff {α : Type} (m : List (String × α)) (k : String) :
    findKey m k = none ↔ ∀ v, (k, v) ∉ m := by
  induction m with
  | nil => simp [findKey]
  | cons kv rest ih =>
    obtain ⟨k1, v1⟩ := kv
    by_cases hk : k1 = k
    · subst hk
      constructor
      · intro h
        simp [findKey] at h
      · intro hall
        exact (hall v1 (List.mem_cons_self _ _)).elim
    · simp only [findKey, hk, if_false, ih]
      constructor
      · intro hall v hv
        rcases List.mem_cons.mp hv with heq | hm
        · exact hk (congrArg Prod.fst heq).symm
        · exact hall v hm
      · intro hall v hv
        exact hall v (List.mem_cons_of_mem _ hv)

theorem mem_insertKey {α : Type} {m : List (String × α)} {k : String} {v : α}
    {kv : String × α} (h : kv ∈ insertKey m k v) : kv = (k, v) ∨ kv ∈ m := by
  induction m with
  | nil => simpa [insertKey] using h
  | cons kv' rest ih =>
    obtain ⟨k1, v1⟩ := kv'
    by_cases hk : k1 = k
    · subst hk
      rw [show insertKey ((k1, v1) :: rest) k1 v = (k1, v) :: rest from by
        simp [insertKey]] at h
      rcases List.mem_cons.mp h with h | h
      · exact .inl h
      · exact .inr (List.mem_cons_of_mem _ h)
    · rw [show insertKey ((k1, v1) :: rest) k v = (k1, v1) :: insertKey rest k v from by
        simp [insertKey, hk]] at h
      rcases List.mem_cons.mp h with h | h
      · exact .inr (by simp [h])
      · rcases ih h with h | h
        · exact .inl h
        · exact .inr (List.mem_cons_of_mem _ h)

theorem mem_keys_insertKey {α : Type} {m : List (String × α)} {k k' : String} {v : α}
    (h : k' ∈ (insertKey m k v).map Prod.fst) : k' = k ∨ k' ∈ m.map Prod.fst := by
  rcases List.mem_map.mp h with ⟨kv, hkv, hfst⟩
  rcases mem_insertKey hkv with h | h
  · left; rw [← hfst, h]
  · right; exact List.mem_map.mpr ⟨kv, h, hfst⟩

theorem nodup_keys_insertKey {α : Type} {m : List (String × α)} (k : String) (v : α)
    (h : (m.map Prod.fst).Nodup) : ((insertKey m k v).map Prod.fst).Nodup := by
  induction m with
  | nil => simp [insertKey]
  | cons kv rest ih =>
    obtain ⟨k1, v1⟩ := kv
    by_cases hk : k1 = k
    · subst hk
      simpa [insertKey] using h
    · simp only [List.map_cons, List.nodup_cons] at h
      have hstep : (insertKey (⟨k1, v1⟩ :: rest) k v).map Prod.fst =
          k1 :: (insertKey rest k v).map Prod.fst := by
        simp [insertKey, hk]
      rw [hstep]
      refine List.nodup_cons.mpr ⟨?_, ih h.2⟩
      intro hmem
      rcases mem_keys_insertKey hmem with heq | hmem'
      · exact hk heq
      · exact h.1 hmem'

theorem findKey_foldl_eraseKey {α : Type} (ks : List String)
    (m : List (String × α)) (k : String) :
    findKey (ks.foldl (fun acc k' => eraseKey acc k') m) k =
      if k ∈ ks then none else findKey m k := by
  induction ks generalizing m with
  | nil => simp
  | cons k0 rest ih =>
    by_cases hk : k = k0
    · subst hk
      simp only [List.foldl_cons, ih, List.mem_cons, true_or, if_pos, if_true]
      by_cases hmem : k ∈ rest
      · simp [hmem]
      · simp [hmem, findKey_eraseKey_self]
    · simp only [List.foldl_cons, ih, List.mem_cons]
      by_cases hmem : k ∈ rest
      · simp [hmem, hk]
      · simp [hmem, hk, findKey_eraseKey_ne _ _ _ (fun h => hk h)]

theorem foldl_eraseKey_sublist {α : Type} (ks : List String) (m : List (String × α)) :
    (ks.foldl (fun acc k' => eraseKey acc k') m).Sublist m := by
  induction ks generalizing m with
  | nil => simp
  | cons k0 rest ih =>
    exact (ih (eraseKey m k0)).trans (List.filter_sublist m)

theorem foldl_inv {α β : Type} (step : β → α → β) (P : β → Prop) (l : List α)
    (init : β) (h0 : P init) (hstep : ∀ b a, a ∈ l → P b → P (step b a)) :
    P (l.foldl step init) := by
  induction l generalizing init with
  | nil => simpa using h0
  | cons a rest ih =>
    exact ih (step init a) (hstep init a (List.mem_cons_self a rest) h0)
      (fun b a' ha' hb => hstep b a' (List.mem_cons_of_mem _ ha') hb)

theorem foldl_some_cases {α : Type}
    (f : Option SnapService.BestMatch → α → Option SnapService.BestMatch)
    (tid : String)
    (hstep : ∀ b a m, f b a = some m → b = some m ∨ m.targetId = tid) :
    ∀ (l : List α) (b : Option SnapService.BestMatch)
      (m : SnapService.BestMatch),
      l.foldl f b = some m → b = some m ∨ m.targetId = tid := by
  intro l
  induction l with
  | nil =>
    intro b m h
    exact .inl (by simpa using h)
  | cons a rest ih =>
    intro b m h
    rcases ih (f b a) m (by simpa using h) with h' | h'
    · exact hstep b a m h'
    · exact .inr h'

theorem foldl_some_mem {α : Type}
    (f : Option SnapService.BestMatch → α → Option SnapService.BestMatch)
    (tidOf : α → String)
    (hstep : ∀ b a m, f b a = some m → b = some m ∨ m.targetId = tidOf a) :
    ∀ (l : List α) (b : Option SnapService.BestMatch)
      (m : SnapService.BestMatch),
      l.foldl f b = some m → b = some m ∨ ∃ a ∈ l, m.targetId = tidOf a := by
  intro l
  induction l with
  | nil =>
    intro b m h
    exact .inl (by simpa using h)
  | cons a rest ih =>
    intro b m h
    rcases ih (f b a) m (by simpa using h) with h' | ⟨a', ha', hm⟩
    · rcases hstep b a m h' with h'' | h''
      · exact .inl h''
      · exact .inr ⟨a, List.mem_cons_self _ _, h''⟩
    · exact .inr ⟨a', List.mem_cons_of_mem _ ha', hm⟩

/-- A window that is selected as the best proximity candidate necessarily
has an auto-snap config installed: the candidate search only iterates over
configured windows. -/
theorem bestMatch_target_mem (env : Env) (s : SnapState)
    (cfg : AutoSnapConfig) (d : String) (frame : Rect)
    (m : SnapService.BestMatch)
    (h : SnapService.bestMatch env s cfg d frame = some m) :
    ∃ tcfg, (m.targetId, tcfg) ∈ s.autoSnapConfigs := by
  unfold SnapService.bestMatch at h
  have hmem : (none : Option SnapService.BestMatch) = some m ∨
      ∃ tc ∈ s.autoSnapConfigs, m.targetId = tc.1 := by
    refine foldl_some_mem _ (fun tc => tc.1) ?_ _ none m h
    intro b tc m' hr
    dsimp only at hr
    split at hr
    · exact .inl hr
    split at hr
    · exact .inl hr
    split at hr
    · exact .inl hr
    split at hr
    · exact .inl hr
    split at hr
    · exact .inl hr
    split at hr
    · exact .inl hr
    split at hr
    · exact .inl hr
    refine foldl_some_cases _ tc.1 ?_ _ b m' hr
    intro b' de m'' hr'
    refine foldl_some_cases _ tc.1 ?_ _ b' m'' hr'
    intro b'' te m3 hr''
    split at hr''
    · split at hr''
      · split at hr''
        · right
          cases hr''
          rfl
        · split at hr''
          · right
            cases hr''
            rfl
          · exact .inl hr''
      · exact .inl hr''
    · exact .inl hr''
  rcases hmem with h' | ⟨tc, htc, hm⟩
  · exact absurd h' (by simp)
  · exact ⟨tc.2, by rw [hm]; simpa using htc⟩

/-- When the window is unknown to the directory, every constituent
`Animate` of an `AnimateMultiple` fails with `NOT_FOUND` into a discarded
result, so the fold leaves the state untouched. -/
theorem animateMultiple_fold_no_window (env : Env) (now : ℕ) (w : String)
    (hw : env w = none) :
    ∀ (l : List EncVal) (st : AnimState),
      (l.foldl (fun st item =>
        match item with
        | EncVal.map mm => (AnimationService.animate env now st (some w) mm).1
        | _ => st) st) = st := by
  intro l
  induction l with
  | nil => intro st; rfl
  | cons x rest ih =>
    intro x0
    rw [List.foldl_cons]
    cases x with
    | map mm =>
      have hid : (AnimationService.animate env now x0 (some w) mm).1 = x0 := by
        simp [AnimationService.animate, hw]
      dsimp only
      rw [hid]
      exact ih x0
    | null => exact ih x0
    | bool _ => exact ih x0
    | int _ => exact ih x0
    | num _ => exact ih x0
    | str _ => exact ih x0
    | list _ => exact ih x0

theorem cppRound_intCast (g : ℤ) : cppRound ((g : ℚ)) = g := by
  have h0 : ⌊(1/2 : ℚ)⌋ = 0 := by norm_num
  unfold cppRound
  by_cases h : (0 : ℚ) ≤ (g : ℚ)
  · rw [if_pos h, add_comm, Int.floor_add_int, h0, zero_add]
  · rw [if_neg h]
    have hneg : -(g : ℚ) = ((-g : ℤ) : ℚ) := by push_cast; ring
    rw [hneg, add_comm, Int.floor_add_int, h0, zero_add, neg_neg]

/-! ### Animation-service lemmas -/

/-- Calling `Animate` on a known window with a live handle stores exactly
`builtAnim` under `windowId ++ ":" ++ property` and reports success. -/
theorem animate_some (env : Env) (now : ℕ) (st : AnimState) (wid : String)
    (params : Params) (w : WinInfo) (hw : env wid = some w)
    (hh : w.hasHwnd = true) :
    AnimationService.animate env now st (some wid) params =
      ({ animations := insertKey st.animations
          (wid ++ ":" ++ getStringP params "property" "")
          (builtAnim now wid params w), timerOn := true }, .ok) := by
  simp [AnimationService.animate, builtAnim, hw, hh]

theorem wfAnims_insertKey (l : List (String × ActiveAnimation)) (k : String)
    (a : ActiveAnimation) (hwf : wfAnims l)
    (hk : k = a.windowId ++ ":" ++ a.property) : wfAnims (insertKey l k a) := by
  refine ⟨nodup_keys_insertKey _ _ hwf.1, ?_⟩
  intro kv hkv
  rcases mem_insertKey hkv with h | h
  · rw [h]
    exact hk
  · exact hwf.2 kv h

theorem wfAnims_sublist {l l' : List (String × ActiveAnimation)}
    (hs : l'.Sublist l) (hwf : wfAnims l) : wfAnims l' :=
  ⟨(hwf.1).sublist (hs.map Prod.fst), fun kv hkv => hwf.2 kv (hs.mem hkv)⟩

theorem findKey_isSome_of_mem {α : Type} {l : List (String × α)}
    {kv : String × α} (h : kv ∈ l) : ∃ a, findKey l kv.1 = some a := by
  induction l with
  | nil => simp at h
  | cons kv' rest ih =>
    obtain ⟨k1, v1⟩ := kv'
    by_cases hk : k1 = kv.1
    · exact ⟨v1, by simp [findKey, hk]⟩
    · rcases List.mem_cons.mp h with heq | hmem
      · exact absurd (congrArg Prod.fst heq).symm hk
      · simpa [findKey, hk] using ih hmem

theorem findKey_eq_of_mem_nodup {α : Type} {l : List (String × α)}
    {k : String} {v : α} (hnd : (l.map Prod.fst).Nodup) (h : (k, v) ∈ l) :
    findKey l k = some v := by
  induction l with
  | nil => simp at h
  | cons kv rest ih =>
    obtain ⟨k1, v1⟩ := kv
    simp only [List.map_cons, List.nodup_cons] at hnd
    rcases List.mem_cons.mp h with heq | hmem
    · cases heq
      simp [findKey]
    · have hk : k1 ≠ k := by
        intro hk1
        exact hnd.1 (hk1 ▸ List.mem_map.mpr ⟨(k, v), hmem, rfl⟩)
      simpa [findKey, hk] using ih hnd.2 hmem

/-- The removal phase of `Tick`, characterised: it erases each completed
key once and emits, per completed key in order, the `complete` event read
off the pre-removal table. -/
theorem removeCompleted_spec (completed : List String)
    (l : List (String × ActiveAnimation)) (hnd : completed.Nodup) :
    AnimationService.removeCompleted completed l =
      (completed.foldl (fun acc k => eraseKey acc k) l,
       completed.filterMap (fun k => (findKey l k).map
         (fun a => AnimEvent.complete a.windowId a.property))) := by
  suffices h : ∀ (cs : List String) (l : List (String × ActiveAnimation))
      (evs0 : List AnimEvent), cs.Nodup →
      cs.foldl (fun acc k =>
        match findKey acc.1 k with
        | some a =>
          (eraseKey acc.1 k, acc.2 ++ [AnimEvent.complete a.windowId a.property])
        | none => (acc.1, acc.2)) (l, evs0) =
      (cs.foldl (fun acc k => eraseKey acc k) l,
       evs0 ++ cs.filterMap (fun k => (findKey l k).map
         (fun a => AnimEvent.complete a.windowId a.property))) by
    simpa [AnimationService.removeCompleted] using h completed l [] hnd
  intro cs
  induction cs with
  | nil => intro l evs0 _; simp
  | cons k0 rest ih =>
    intro l evs0 hnd
    have hk0 : k0 ∉ rest := (List.nodup_cons.mp hnd).1
    have hrest : rest.Nodup := (List.nodup_cons.mp hnd).2
    rw [List.foldl_cons, List.foldl_cons]
    cases hf : findKey l k0 with
    | some a =>
      have hcongr : rest.filterMap (fun k => (findKey (eraseKey l k0) k).map
            (fun a => AnimEvent.complete a.windowId a.property)) =
          rest.filterMap (fun k => (findKey l k).map
            (fun a => AnimEvent.complete a.windowId a.property)) := by
        refine List.filterMap_congr ?_
        intro k hk
        rw [findKey_eraseKey_ne _ _ _ (fun heq => hk0 (by rw [← heq]; exact hk))]
      rw [ih (eraseKey l k0) _ hrest, hcongr]
      simp [List.filterMap_cons, hf]
    | none =>
      have hkeep : eraseKey l k0 = l := eraseKey_of_findKey_none l k0 hf
      rw [ih l evs0 hrest]
      simp [List.filterMap_cons, hf, hkeep]

/-- Counting `complete wid prop` events among those produced for a list of
completed keys: exactly one when the key `wid ++ ":" ++ prop` is among
them, zero otherwise. -/
theorem count_filterMap_complete
    (l : List (String × ActiveAnimation)) (completed : List String)
    (wid prop : String)
    (hwf : ∀ kv ∈ l, kv.1 = kv.2.windowId ++ ":" ++ kv.2.property)
    (hsub : ∀ k ∈ completed, ∃ a, findKey l k = some a)
    (hcomp : ∀ a, findKey l (wid ++ ":" ++ prop) = some a →
      a.windowId = wid ∧ a.property = prop)
    (hnd : completed.Nodup) :
    (completed.filterMap (fun k => (findKey l k).map
      (fun a => AnimEvent.complete a.windowId a.property))).count
        (AnimEvent.complete wid prop) =
      if (wid ++ ":" ++ prop) ∈ completed then 1 else 0 := by
  induction completed with
  | nil => simp
  | cons k0 rest ih =>
    have hk0 : k0 ∉ rest := (List.nodup_cons.mp hnd).1
    have hrest : rest.Nodup := (List.nodup_cons.mp hnd).2
    obtain ⟨a0, hf0⟩ := hsub k0 (List.mem_cons_self _ _)
    have hk0wf : k0 = a0.windowId ++ ":" ++ a0.property :=
      hwf (k0, a0) (findKey_some_mem hf0)
    have ihr := ih (fun k hk => hsub k (List.mem_cons_of_mem _ hk)) hrest
    rw [List.filterMap_cons, hf0]
    simp only [Option.map_some']
    by_cases hk : k0 = wid ++ ":" ++ prop
    · obtain ⟨hcw, hcp⟩ := hcomp a0 (hk ▸ hf0)
      have hnotin : (wid ++ ":" ++ prop) ∉ rest := hk ▸ hk0
      rw [List.count_cons]
      rw [ihr]
      simp [hk, hcw, hcp, hnotin]
    · have hne : AnimEvent.complete a0.windowId a0.property ≠
          AnimEvent.complete wid prop := by
        intro heq
        injection heq with h1 h2
        exact hk (hk0wf.trans (by rw [h1, h2]))
      have hk' : ¬(wid ++ ":" ++ prop = k0) := fun h => hk h.symm
      rw [List.count_cons, ihr]
      simp [hne, hk']

/-- Membership of a key in the completed-key list of a tick, for a key
present in a duplicate-free table. -/
theorem mem_completedKeys (l : List (String × ActiveAnimation)) (now : ℕ)
    (k : String) (a : ActiveAnimation)
    (hnd : (l.map Prod.fst).Nodup) (hf : findKey l k = some a) :
    (k ∈ (l.filter
        (fun kv => AnimationService.animCompletes kv.2 now)).map Prod.fst) ↔
      AnimationService.animCompletes a now = true := by
  constructor
  · intro hmem
    rcases List.mem_map.mp hmem with ⟨kv, hkv, hfst⟩
    have hmem' : kv ∈ l := List.mem_of_mem_filter hkv
    have hcomp : AnimationService.animCompletes kv.2 now = true := by
      have := List.mem_filter.mp hkv
      simpa using this.2
    obtain ⟨k', a'⟩ := kv
    cases hfst
    have : findKey l k' = some a' := findKey_eq_of_mem_nodup hnd hmem'
    rw [hf] at this
    cases this
    exact hcomp
  · intro hcomp
    refine List.mem_map.mpr ⟨(k, a), List.mem_filter.mpr ⟨findKey_some_mem hf, by simpa using hcomp⟩, rfl⟩

/-- The completed-key list of a tick has no duplicates when the table has
none. -/
theorem completedKeys_nodup (l : List (String × ActiveAnimation)) (now : ℕ)
    (hnd : (l.map Prod.fst).Nodup) :
    ((l.filter (fun kv => AnimationService.animCompletes kv.2 now)).map
      Prod.fst).Nodup :=
  hnd.sublist ((List.filter_sublist l).map Prod.fst)

/-- Completed keys are present in the table. -/
theorem completedKeys_present (l : List (String × ActiveAnimation)) (now : ℕ) :
    ∀ k ∈ (l.filter
        (fun kv => AnimationService.animCompletes kv.2 now)).map Prod.fst,
      ∃ a, findKey l k = some a := by
  intro k hk
  rcases List.mem_map.mp hk with ⟨kv, hkv, hfst⟩
  rcases findKey_isSome_of_mem (List.mem_of_mem_filter hkv) with ⟨a, ha⟩
  exact ⟨a, hfst ▸ ha⟩

/-- What one `Tick` does to the one animation stored under
`wid ++ ":" ++ prop` in a well-formed table: it emits exactly one
`complete` event for the pair iff the animation completes, removes the
entry exactly when it completes (keeping it untouched otherwise), applies
the exact `to` value on completion, and preserves well-formedness. -/
theorem tick_key_spec (env : Env) (st : AnimState) (now : ℕ)
    (wid prop : String) (a : ActiveAnimation) (w : WinInfo)
    (hw : env wid = some w) (hh : w.hasHwnd = true)
    (hwf : wfAnims st.animations)
    (hf : findKey st.animations (wid ++ ":" ++ prop) = some a)
    (hwid : a.windowId = wid) (hprop : a.property = prop) :
    ((AnimationService.tick env st now).2.2.count
        (AnimEvent.complete wid prop) =
      if AnimationService.animCompletes a now then 1 else 0) ∧
    (findKey (AnimationService.tick env st now).1.animations
        (wid ++ ":" ++ prop) =
      if AnimationService.animCompletes a now then none else some a) ∧
    (AnimationService.animCompletes a now = true →
      AnimEff.apply wid prop a.toValue ∈ (AnimationService.tick env st now).2.1) ∧
    wfAnims (AnimationService.tick env st now).1.animations := by
  have hndc := completedKeys_nodup st.animations now hwf.1
  have hpres := completedKeys_present st.animations now
  have hmemiff := mem_completedKeys st.animations now (wid ++ ":" ++ prop) a
    hwf.1 hf
  have hcomp : ∀ a', findKey st.animations (wid ++ ":" ++ prop) = some a' →
      a'.windowId = wid ∧ a'.property = prop := by
    intro a' ha'
    rw [hf] at ha'
    cases ha'
    exact ⟨hwid, hprop⟩
  simp only [AnimationService.tick]
  rw [removeCompleted_spec _ _ hndc]
  refine ⟨?_, ?_, ?_, ?_⟩
  · rw [count_filterMap_complete st.animations _ wid prop hwf.2 hpres hcomp hndc]
    by_cases hc : AnimationService.animCompletes a now = true
    · rw [if_pos (hmemiff.mpr hc), if_pos hc]
    · rw [if_neg (fun hmem => hc (hmemiff.mp hmem)),
        if_neg (by simpa using hc)]
  · rw [findKey_foldl_eraseKey]
    by_cases hc : AnimationService.animCompletes a now = true
    · rw [if_pos (hmemiff.mpr hc), if_pos hc]
    · rw [if_neg (fun hmem => hc (hmemiff.mp hmem)),
        if_neg (by simpa using hc), hf]
  · intro hc
    have hmem : (wid ++ ":" ++ prop, a) ∈ st.animations := findKey_some_mem hf
    refine List.mem_flatten.mpr
      ⟨AnimationService.applyValue env a.windowId a.property a.toValue, ?_, ?_⟩
    · refine List.mem_map.mpr ⟨(wid ++ ":" ++ prop, a), hmem, ?_⟩
      dsimp only
      rw [hc]
      simp
    · simp [AnimationService.applyValue, hwid, hprop, hw, hh]
  · exact wfAnims_sublist (foldl_eraseKey_sublist _ _) hwf

/-- A tick over a well-formed table that holds no animation under
`wid ++ ":" ++ prop` emits no `complete` event for that pair. -/
theorem tick_key_absent (env : Env) (st : AnimState) (now : ℕ)
    (wid prop : String) (hwf : wfAnims st.animations)
    (hf : findKey st.animations (wid ++ ":" ++ prop) = none) :
    (AnimationService.tick env st now).2.2.count
      (AnimEvent.complete wid prop) = 0 := by
  have hndc := completedKeys_nodup st.animations now hwf.1
  have hpres := completedKeys_present st.animations now
  have hcomp : ∀ a', findKey st.animations (wid ++ ":" ++ prop) = some a' →
      a'.windowId = wid ∧ a'.property = prop := by
    intro a' ha'
    rw [hf] at ha'
    cases ha'
  have hnotin : (wid ++ ":" ++ prop) ∉ (st.animations.filter
      (fun kv => AnimationService.animCompletes kv.2 now)).map Prod.fst := by
    intro hmem
    rcases hpres _ hmem with ⟨a', ha'⟩
    rw [hf] at ha'
    cases ha'
  simp only [AnimationService.tick]
  rw [removeCompleted_spec _ _ hndc]
  rw [count_filterMap_complete st.animations _ wid prop hwf.2 hpres hcomp hndc]
  rw [if_neg hnotin]

/-! ## Claim theorems -/

/-- C2: for every window `W` and every snap-engine state, after
`OnWindowDestroyed(W)` returns, the bindings map contains no binding in
which `W` is the follower or the target, and any proximity state whose
dragged window or target window is `W` has been cleared. (Proved for all
states, which subsumes the reachable ones.) -/
theorem destroy_cleanup_complete (s : SnapState) (id : String) :
    referencesWindow (SnapService.onWindowDestroyed s id) id = false := by
  unfold referencesWindow SnapService.onWindowDestroyed
  simp only [Bool.or_eq_false_iff]
  constructor
  · rw [List.any_eq_false]
    intro kv hkv
    have h2 := List.mem_filter.mp hkv
    have h1 := List.mem_filter.mp h2.1
    have hfst : kv.1 ≠ id := by simpa using h1.2
    have hsnd : kv.2.targetId ≠ id := by simpa using h2.2
    simp [hfst, hsnd]
  · cases hp : s.proximity with
    | none => simp
    | some p =>
      by_cases hc : p.draggedId = id ∨ p.targetId = id
      · simp [hc]
      · push_neg at hc
        simp [hc.1, hc.2]

/-- C5: calling `StartDrag` for a window while another drag session is
active has no observable effect: no capture or subclassing, no `DragBegan`
notification, and the coordinator's session state is unchanged. -/
theorem startDrag_second_session_noop (s : DragState) (cursor : Point)
    (id : String) (window : Option WinInfo) (h : s.isDragging = true) :
    DragCoordinator.startDrag s cursor id window = (s, []) := by
  cases window with
  | none => rfl
  | some w =>
    cases hw : w.hasHwnd with
    | false => simp [DragCoordinator.startDrag, hw]
    | true => simp [DragCoordinator.startDrag, hw, h]

theorem startDrag_second_session_noop_witness :
    DragCoordinator.startDrag ⟨"a", true, ⟨0, 0⟩, ⟨10, 10⟩, some "a"⟩ ⟨5, 5⟩ "b"
      (some ⟨true, ⟨1, 2, 3, 4⟩, true, 1, 1⟩) =
      (⟨"a", true, ⟨0, 0⟩, ⟨10, 10⟩, some "a"⟩, []) :=
  startDrag_second_session_noop _ _ _ _ rfl

/-- C6: during an active drag session, a pointer-move event repositions
the dragged window to exactly `start_window + (cursor - start_mouse)` with
a move-only call (width and height unchanged), and then notifies the
delegate's `DragMoved` with the window's new frame. -/
theorem onMouseMove_repositions (s : DragState) (rect : Rect) (cursor : Point)
    (h : s.isDragging = true) :
    ∃ f : Rect,
      DragCoordinator.onMouseMove s rect cursor =
        (s, [DragEff.moveWindow s.activeDragId
               (s.dragStartWindow.x + (cursor.x - s.dragStartMouse.x))
               (s.dragStartWindow.y + (cursor.y - s.dragStartMouse.y)),
             DragEff.notifyMoved s.activeDragId f]) ∧
      f.left = s.dragStartWindow.x + (cursor.x - s.dragStartMouse.x) ∧
      f.top = s.dragStartWindow.y + (cursor.y - s.dragStartMouse.y) ∧
      f.right - f.left = rect.right - rect.left ∧
      f.bottom - f.top = rect.bottom - rect.top := by
  refine ⟨⟨s.dragStartWindow.x + (cursor.x - s.dragStartMouse.x),
          s.dragStartWindow.y + (cursor.y - s.dragStartMouse.y),
          s.dragStartWindow.x + (cursor.x - s.dragStartMouse.x) +
            (rect.right - rect.left),
          s.dragStartWindow.y + (cursor.y - s.dragStartMouse.y) +
            (rect.bottom - rect.top)⟩, ?_, rfl, rfl, by ring, by ring⟩
  simp [DragCoordinator.onMouseMove, h]

theorem onMouseMove_repositions_witness :
    DragCoordinator.onMouseMove ⟨"a", true, ⟨10, 10⟩, ⟨100, 100⟩, some "a"⟩
      ⟨100, 100, 150, 160⟩ ⟨13, 14⟩ =
      (⟨"a", true, ⟨10, 10⟩, ⟨100, 100⟩, some "a"⟩,
       [DragEff.moveWindow "a" 103 104,
        DragEff.notifyMoved "a" ⟨103, 104, 153, 164⟩]) := by
  obtain ⟨f, heq, h1, h2, h3, h4⟩ :=
    onMouseMove_repositions ⟨"a", true, ⟨10, 10⟩, ⟨100, 100⟩, some "a"⟩
      ⟨100, 100, 150, 160⟩ ⟨13, 14⟩ rfl
  have hf : f = ⟨103, 104, 153, 164⟩ := by
    obtain ⟨l, t, r, b⟩ := f
    dsimp only at h1 h2 h3 h4
    simp only [Rect.mk.injEq]
    refine ⟨by omega, by omega, by omega, by omega⟩
  rw [hf] at heq
  exact heq.trans (by decide)

/-- C1 (counterexample): with an empty directory, a `snap` command naming
two ids unknown to the directory still creates the binding, still emits
the `snapped` event, and still reports success — contradicting the claim
that the operation fails without creating a binding, emitting the event,
or reporting success. -/
theorem snap_unknown_ids_cex :
    env0 "f" = none ∧ env0 "t" = none ∧
    (SnapService.snap env0 snapState0 snapUnknownParams).result = .ok ∧
    (SnapService.snap env0 snapState0 snapUnknownParams).events =
      [.snapped "f" "t"] ∧
    findKey (SnapService.snap env0 snapState0 snapUnknownParams).state.bindings
        "f" =
      some ⟨"f", "t", "top", "bottom", "center", 0, "hideFollower",
        "hideAndDetach"⟩ := by
  decide

/-- C1 (amended): `Snap` rejects a command with `INVALID_PARAMS` — with no
state change, no effect and no event — exactly when `followerId` or
`targetId` is missing or empty. For any non-empty ids, known to the
directory or not, it creates/replaces the follower's binding, emits the
`snapped` event and reports success; only the physical repositioning is
silently skipped when the follower has no registered window. -/
theorem snap_validation_amended (env : Env) (s : SnapState) (params : Params) :
    (getStringP params "followerId" "" = "" ∨ getStringP params "targetId" "" = "" →
      SnapService.snap env s params = ⟨s, [], [], .err "INVALID_PARAMS"⟩) ∧
    (getStringP params "followerId" "" ≠ "" → getStringP params "targetId" "" ≠ "" →
      (SnapService.snap env s params).result = .ok ∧
      (SnapService.snap env s params).events =
        [.snapped (getStringP params "followerId" "")
          (getStringP params "targetId" "")] ∧
      (∃ b, findKey (SnapService.snap env s params).state.bindings
          (getStringP params "followerId" "") = some b ∧
        b.targetId = getStringP params "targetId" "") ∧
      (env (getStringP params "followerId" "") = none →
        (SnapService.snap env s params).effs = [])) := by
  constructor
  · intro h
    simp only [SnapService.snap]
    rw [if_pos h]
  · intro hf ht
    have hcond : ¬(getStringP params "followerId" "" = "" ∨
        getStringP params "targetId" "" = "") := by tauto
    simp only [SnapService.snap]
    rw [if_neg hcond]
    refine ⟨rfl, rfl, ⟨_, findKey_insertKey_self _ _ _, rfl⟩, ?_⟩
    intro henv
    simp [SnapService.positionFollower, henv]

theorem snap_validation_amended_witness :
    (SnapService.snap env0 snapState0 snapUnknownParams).result = .ok ∧
    (SnapService.snap env0 snapState0 snapUnknownParams).effs = [] := by
  have h := (snap_validation_amended env0 snapState0 snapUnknownParams).2
    (by decide) (by decide)
  exact ⟨h.1, h.2.2.2 (by decide)⟩

/-- C4: under display scale 1, a binding with followerEdge `top`,
targetEdge `bottom`, alignment `center` and (integer) gap `g` places the
follower at `y = target.bottom + g` and
`x = target.left + (target.width - follower.width) / 2` (C integer
division, as in the source). -/
theorem snapPosition_top_bottom_center (env : Env) (b : SnapBinding)
    (f t : WinInfo) (g : ℤ)
    (hf : env b.followerId = some f) (hfh : f.hasHwnd = true)
    (ht : env b.targetId = some t) (hth : t.hasHwnd = true)
    (hscale : t.scale = 1)
    (hfe : b.followerEdge = "top") (hte : b.targetEdge = "bottom")
    (hal : b.alignment = "center") (hgap : b.gap = (g : ℚ)) :
    (SnapService.calculateSnapPosition env b).2 = t.rect.bottom + g ∧
    (SnapService.calculateSnapPosition env b).1 =
      t.rect.left +
        Int.tdiv ((t.rect.right - t.rect.left) - (f.rect.right - f.rect.left))
          2 := by
  have hgp : logicalToPhysical b.gap t.scale = g := by
    rw [hgap, hscale, logicalToPhysical, mul_one, cppRound_intCast]
  unfold SnapService.calculateSnapPosition
  rw [hf, ht]
  simp [hfh, hth, hfe, hte, hal, hgp]

theorem snapPosition_top_bottom_center_witness :
    SnapService.calculateSnapPosition envC4 bindC4 = (175, 254) := by
  obtain ⟨hy, hx⟩ := snapPosition_top_bottom_center envC4 bindC4 fWin tWin 4
    (by decide) (by decide) (by decide) (by decide) (by norm_num [tWin])
    (by decide) (by decide) (by decide) (by norm_num [bindC4])
  rw [Prod.ext_iff]
  constructor
  · rw [hx]; decide
  · rw [hy]; decide

/-- C9 (counterexample): `getSnapDistance` invoked with its required
`followerId` parameter missing does not return a named error — it returns
the success value `0`, contradicting the claim that every caller error is
surfaced as a named error. -/
theorem getSnapDistance_missing_id_cex :
    (SnapService.getSnapDistance env0 snapState0 []).result = .okNum 0 ∧
    (SnapService.getSnapDistance env0 snapState0 []).result ≠
      .err "INVALID_PARAMS" ∧
    (SnapService.getSnapDistance env0 snapState0 []).result ≠
      .err "MISSING_ID" ∧
    (SnapService.getSnapDistance env0 snapState0 []).state = snapState0 := by
  decide

/-- C9 (amended): caller errors on `snap`, `detach`, `reSnap`,
`setAutoSnapConfig`, `animate`, `animateMultiple`, `stop` and on unknown
command names are surfaced synchronously as named errors
(`INVALID_PARAMS`, `MISSING_ID`, `NOT_FOUND`, `UNKNOWN_COMMAND`) with no
state mutated before the check — but `getSnapDistance` with a missing
`followerId` returns the neutral success value `0`, and `isAnimating`
with a missing window id returns the success value `false`, instead of a
named error. -/
theorem caller_error_surfacing_amended (env : Env) (now : ℕ) (s : SnapState)
    (a : AnimState) (params : Params) (cmd : String)
    (hfid : getStringP params "followerId" "" = "")
    (hpid : getStringP params "paletteId" "" = "")
    (hcmd : cmd ≠ "snap" ∧ cmd ≠ "detach" ∧ cmd ≠ "reSnap" ∧
      cmd ≠ "getSnapDistance" ∧ cmd ≠ "setAutoSnapConfig" ∧
      cmd ≠ "animate" ∧ cmd ≠ "animateMultiple" ∧ cmd ≠ "stop" ∧
      cmd ≠ "stopAll" ∧ cmd ≠ "isAnimating") :
    SnapService.snap env s params = ⟨s, [], [], .err "INVALID_PARAMS"⟩ ∧
    SnapService.detach env s params = ⟨s, [], [], .err "INVALID_PARAMS"⟩ ∧
    SnapService.reSnap env s params = ⟨s, [], [], .err "INVALID_PARAMS"⟩ ∧
    SnapService.setAutoSnapConfig env s params = ⟨s, [], [], .err "INVALID_PARAMS"⟩ ∧
    SnapService.handle env s cmd params = ⟨s, [], [], .err "UNKNOWN_COMMAND"⟩ ∧
    AnimationService.animate env now a none params = (a, .err "MISSING_ID") ∧
    (∀ wid, env wid = none →
      AnimationService.animate env now a (some wid) params = (a, .err "NOT_FOUND")) ∧
    AnimationService.animateMultiple env now a none params = (a, .err "MISSING_ID") ∧
    AnimationService.stop a none = (a, .err "MISSING_ID") ∧
    AnimationService.handle env now a cmd none params = (a, .err "UNKNOWN_COMMAND") ∧
    SnapService.getSnapDistance env s params = ⟨s, [], [], .okNum 0⟩ ∧
    AnimationService.isAnimating a none = .okBool false := by
  obtain ⟨h1, h2, h3, h4, h5, h6, h7, h8, h9, h10⟩ := hcmd
  refine ⟨?_, ?_, ?_, ?_, ?_, rfl, ?_, rfl, rfl, ?_, ?_, rfl⟩
  · simp only [SnapService.snap]
    rw [if_pos (Or.inl hfid)]
  · simp only [SnapService.detach]
    rw [if_pos hfid]
  · simp only [SnapService.reSnap]
    rw [if_pos hfid]
  · simp only [SnapService.setAutoSnapConfig]
    rw [if_pos hpid]
  · simp only [SnapService.handle]
    rw [if_neg h1, if_neg h2, if_neg h3, if_neg h4, if_neg h5]
  · intro wid hwid
    simp only [AnimationService.animate]
    rw [hwid]
  · simp only [AnimationService.handle]
    rw [if_neg h6, if_neg h7, if_neg h8, if_neg h9, if_neg h10]
  · simp only [SnapService.getSnapDistance]
    rw [if_pos hfid]

/-- C8 (counterexample): `setAutoSnapConfig` with a null `config` does not
clear the window's stored auto-snap configuration — it is a no-op that
reports success, leaving the configuration (and hence the window's
auto-snap participation) intact. -/
theorem setAutoSnapConfig_null_cex :
    (SnapService.setAutoSnapConfig env0 snapStateCfg nullConfigParams).result =
      .ok ∧
    (SnapService.setAutoSnapConfig env0 snapStateCfg nullConfigParams).state =
      snapStateCfg ∧
    findKey (SnapService.setAutoSnapConfig env0 snapStateCfg
        nullConfigParams).state.autoSnapConfigs "w" = some autoCfg0 := by
  decide

/-- C8 (amended): `SetAutoSnapConfig` with an absent or non-map `config`
parameter leaves the stored configuration unchanged (returning success)
rather than clearing it; a config whose `canSnapFrom` and `acceptsSnapOn`
sets are both empty erases the stored configuration; and a window with no
stored configuration participates in no auto-snap behavior during
proximity detection — a drag-move for it at most clears existing
proximity state (emitting `proximityExited`), and it is never selected as
a proximity target. -/
theorem setAutoSnapConfig_amended (env : Env) (s : SnapState)
    (params : Params) (d : String) (frame : Rect) :
    (getStringP params "paletteId" "" ≠ "" →
      (∀ v, lookupP params "config" = some v → isMapEnc v = false →
        SnapService.setAutoSnapConfig env s params = ⟨s, [], [], .ok⟩) ∧
      (lookupP params "config" = none →
        SnapService.setAutoSnapConfig env s params = ⟨s, [], [], .ok⟩) ∧
      (∀ cm, lookupP params "config" = some (.map cm) →
        SnapService.readStringSet cm "canSnapFrom" = [] →
        SnapService.readStringSet cm "acceptsSnapOn" = [] →
        SnapService.setAutoSnapConfig env s params =
          ⟨{ s with autoSnapConfigs :=
              eraseKey s.autoSnapConfigs (getStringP params "paletteId" "") },
           [], [], .ok⟩)) ∧
    (findKey s.autoSnapConfigs d = none →
      SnapService.checkProximity env s d frame = (s, []) ∨
      ∃ p, s.proximity = some p ∧ p.draggedId = d ∧
        SnapService.checkProximity env s d frame =
          ({ s with proximity := none }, [.proximityExited d p.targetId])) ∧
    (∀ cfg m, SnapService.bestMatch env s cfg d frame = some m →
      ∃ tcfg, (m.targetId, tcfg) ∈ s.autoSnapConfigs) := by
  refine ⟨?_, ?_, fun cfg m hm => bestMatch_target_mem env s cfg d frame m hm⟩
  · intro hpid
    refine ⟨?_, ?_, ?_⟩
    · intro v hv hvm
      simp only [SnapService.setAutoSnapConfig]
      rw [if_neg hpid, hv]
      cases v with
      | map kvs => simp [isMapEnc] at hvm
      | null => rfl
      | bool _ => rfl
      | int _ => rfl
      | num _ => rfl
      | str _ => rfl
      | list _ => rfl
    · intro hnone
      simp only [SnapService.setAutoSnapConfig]
      rw [if_neg hpid, hnone]
    · intro cm hcm hcs has
      simp only [SnapService.setAutoSnapConfig]
      rw [if_neg hpid, hcm]
      simp [hcs, has]
  · intro hnone
    simp only [SnapService.checkProximity]
    rw [hnone]
    cases hp : s.proximity with
    | none => exact .inl (by simp [SnapService.clearProximityFor, hp])
    | some p =>
      by_cases hd : p.draggedId = d
      · exact .inr ⟨p, rfl, hd, by simp [SnapService.clearProximityFor, hp, hd]⟩
      · exact .inl (by simp [SnapService.clearProximityFor, hp, hd])

theorem setAutoSnapConfig_amended_witness :
    SnapService.setAutoSnapConfig env0 snapStateCfg nullConfigParams =
      ⟨snapStateCfg, [], [], .ok⟩ := by
  have h := ((setAutoSnapConfig_amended env0 snapStateCfg nullConfigParams "z"
    ⟨0, 0, 1, 1⟩).1 (by decide)).1 EncVal.null rfl rfl
  exact h

theorem caller_error_surfacing_amended_witness :
    SnapService.snap env0 snapState0 [] = ⟨snapState0, [], [], .err "INVALID_PARAMS"⟩ ∧
    SnapService.getSnapDistance env0 snapState0 [] =
      ⟨snapState0, [], [], .okNum 0⟩ ∧
    AnimationService.animate env0 0 animState0 (some "w") [] =
      (animState0, .err "NOT_FOUND") := by
  have h := caller_error_surfacing_amended env0 0 snapState0 animState0 [] "bogus"
    (by decide) (by decide)
    (by refine ⟨?_, ?_, ?_, ?_, ?_, ?_, ?_, ?_, ?_, ?_⟩ <;> decide)
  exact ⟨h.1, h.2.2.2.2.2.2.2.2.2.2.1, h.2.2.2.2.2.2.1 "w" rfl⟩

/-- C10: `AnimateMultiple` reports success whenever its window id is
present and its `animations` parameter is a list, regardless of whether
any individual animation succeeds: non-map list entries are silently
skipped, and errors of constituent `Animate` calls (e.g. `NOT_FOUND` for a
destroyed window) are discarded and never reach the caller. -/
theorem animateMultiple_swallows_errors (env : Env) (now : ℕ) (s : AnimState)
    (w : String) (params params' : Params) (items pre post : List EncVal)
    (x : EncVal)
    (hitems : lookupP params "animations" = some (.list items)) :
    (AnimationService.animateMultiple env now s (some w) params).2 = .ok ∧
    (items = pre ++ x :: post → isMapEnc x = false →
      lookupP params' "animations" = some (.list (pre ++ post)) →
      (AnimationService.animateMultiple env now s (some w) params).1 =
        (AnimationService.animateMultiple env now s (some w) params').1) ∧
    (env w = none →
      AnimationService.animateMultiple env now s (some w) params = (s, .ok)) := by
  refine ⟨?_, ?_, ?_⟩
  · simp only [AnimationService.animateMultiple]
    rw [hitems]
  · intro hsplit hx hitems'
    simp only [AnimationService.animateMultiple]
    rw [hitems, hitems']
    dsimp only
    rw [hsplit]
    cases x with
    | map mm => simp [isMapEnc] at hx
    | null => simp [List.foldl_append]
    | bool _ => simp [List.foldl_append]
    | int _ => simp [List.foldl_append]
    | num _ => simp [List.foldl_append]
    | str _ => simp [List.foldl_append]
    | list _ => simp [List.foldl_append]
  · intro hw
    simp only [AnimationService.animateMultiple]
    rw [hitems]
    dsimp only
    rw [animateMultiple_fold_no_window env now w hw items s]

theorem animateMultiple_swallows_errors_witness :
    AnimationService.animateMultiple env0 0 animState0 (some "w")
      animMultiParams = (animState0, .ok) := by
  exact (animateMultiple_swallows_errors env0 0 animState0 "w" animMultiParams
    [] [.int 3, .map [("property", .str "x"), ("to", .num 10)]] [] []
    EncVal.null rfl).2.2 rfl

/-- C3: for an unbound dragged window with a usable auto-snap config, one
drag-move callback emits exactly one `proximityEntered` when a best match
first appears while no proximity state was recorded; exactly one
`proximityUpdated` (and no Entered/Exited) when the best match keeps the
same target and edge pair; and exactly one `proximityExited`, clearing the
proximity state, when no match is within threshold while a proximity state
for the dragged window was recorded. Composed over a drag, this is the
claimed hysteresis. -/
theorem proximity_hysteresis (env : Env) (s : SnapState) (draggedId : String)
    (frame : Rect) (dragConfig : AutoSnapConfig)
    (hunbound : findKey s.bindings draggedId = none)
    (hcfg : findKey s.autoSnapConfigs draggedId = some dragConfig)
    (husable : dragConfig.canSnapFrom.isEmpty = false) :
    (∀ m, s.proximity = none →
      SnapService.bestMatch env s dragConfig draggedId frame = some m →
      (SnapService.dragMoved env s draggedId frame).2.2 =
        [.proximityEntered draggedId m.targetId m.draggedEdge m.targetEdge
          m.distance] ∧
      (SnapService.dragMoved env s draggedId frame).1.proximity =
        some ⟨draggedId, m.targetId, m.draggedEdge, m.targetEdge⟩) ∧
    (∀ m p, s.proximity = some p →
      SnapService.bestMatch env s dragConfig draggedId frame = some m →
      p.targetId = m.targetId → p.draggedEdge = m.draggedEdge →
      p.targetEdge = m.targetEdge →
      (SnapService.dragMoved env s draggedId frame).2.2 =
        [.proximityUpdated draggedId m.targetId m.distance] ∧
      (SnapService.dragMoved env s draggedId frame).1.proximity = some p) ∧
    (∀ p, s.proximity = some p → p.draggedId = draggedId →
      SnapService.bestMatch env s dragConfig draggedId frame = none →
      (SnapService.dragMoved env s draggedId frame).2.2 =
        [.proximityExited draggedId p.targetId] ∧
      (SnapService.dragMoved env s draggedId frame).1.proximity = none) := by
  refine ⟨?_, ?_, ?_⟩
  · intro m hpnone hbm
    simp only [SnapService.dragMoved]
    rw [if_pos hunbound]
    simp [SnapService.checkProximity, hcfg, hbm, husable, hpnone]
  · intro m p hp hbm h1 h2 h3
    simp only [SnapService.dragMoved]
    rw [if_pos hunbound]
    simp [SnapService.checkProximity, hcfg, hbm, husable, hp, h1, h2, h3]
  · intro p hp hd hbm
    simp only [SnapService.dragMoved]
    rw [if_pos hunbound]
    simp [SnapService.checkProximity, hcfg, hbm, husable,
      SnapService.clearProximityFor, hp, hd]

theorem proximity_hysteresis_witness :
    (SnapService.dragMoved envProx snapStateProx "D" dragFrame).2.2 =
      [.proximityEntered "D" "T" "bottom" "top" 40] ∧
    (SnapService.dragMoved envProx snapStateProx "D" dragFrame).1.proximity =
      some ⟨"D", "T", "bottom", "top"⟩ := by
  have hbm : SnapService.bestMatch envProx snapStateProx dragCfgW "D"
      dragFrame = some ⟨"T", "bottom", "top", 40⟩ := by
    norm_num [SnapService.bestMatch, SnapService.calculateEdgeDistance,
      SnapService.areCompatibleEdges, SnapService.farAway, findKey, envProx,
      snapStateProx, dragCfgW, targetCfgW, targetWin, dragFrame,
      List.foldl_cons, List.foldl_nil]
    decide
  exact (proximity_hysteresis envProx snapStateProx "D" dragFrame dragCfgW
    rfl rfl rfl).1 ⟨"T", "bottom", "top", 40⟩ rfl hbm

/-- C7: when two `Animate` calls arrive for the same `(window, property)`
key before the first completes, the first is discarded entirely — the
resulting state equals issuing only the second call — and only the second
runs to completion: pre-completion ticks emit no `complete` event for the
key and keep the second animation stored, the completing tick applies the
second call's exact `to` value, emits exactly one `complete` event for the
key and removes it, and ticks thereafter emit no further `complete` event
for the key. -/
theorem animation_overwrite (env : Env) (s s2 : AnimState) (wid prop : String)
    (w : WinInfo) (params1 params2 : Params) (now1 now2 : ℕ)
    (hw : env wid = some w) (hh : w.hasHwnd = true)
    (hwf : wfAnims s.animations)
    (hp1 : getStringP params1 "property" "" = prop)
    (hp2 : getStringP params2 "property" "" = prop)
    (hs2 : s2 = (AnimationService.animate env now2
      (AnimationService.animate env now1 s (some wid) params1).1
      (some wid) params2).1) :
    s2 = (AnimationService.animate env now2 s (some wid) params2).1 ∧
    ∃ a2, findKey s2.animations (wid ++ ":" ++ prop) = some a2 ∧
      a2.toValue = getDoubleP params2 "to" 0 ∧
      a2.windowId = wid ∧ a2.property = prop ∧ a2.startTime = now2 ∧
      (∀ now, AnimationService.animCompletes a2 now = false →
        (AnimationService.tick env s2 now).2.2.count
          (AnimEvent.complete wid prop) = 0 ∧
        findKey (AnimationService.tick env s2 now).1.animations
          (wid ++ ":" ++ prop) = some a2) ∧
      (∀ now, AnimationService.animCompletes a2 now = true →
        AnimEff.apply wid prop a2.toValue ∈
          (AnimationService.tick env s2 now).2.1 ∧
        (AnimationService.tick env s2 now).2.2.count
          (AnimEvent.complete wid prop) = 1 ∧
        findKey (AnimationService.tick env s2 now).1.animations
          (wid ++ ":" ++ prop) = none ∧
        ∀ now', (AnimationService.tick env
            (AnimationService.tick env s2 now).1 now').2.2.count
          (AnimEvent.complete wid prop) = 0) := by
  have heq1 := animate_some env now1 s wid params1 w hw hh
  have heq2 := animate_some env now2
    ((AnimationService.animate env now1 s (some wid) params1).1)
    wid params2 w hw hh
  have heq2' := animate_some env now2 s wid params2 w hw hh
  have hs1A : (AnimationService.animate env now1 s (some wid) params1).1 =
      { animations := insertKey s.animations (wid ++ ":" ++ prop)
          (builtAnim now1 wid params1 w), timerOn := true } := by
    rw [heq1, hp1]
  have hs2A : s2 =
      { animations := insertKey s.animations (wid ++ ":" ++ prop)
          (builtAnim now2 wid params2 w),
        timerOn := true } := by
    rw [hs2, heq2, hp2, hs1A]
    dsimp only
    rw [insertKey_insertKey]
  have hconjA : s2 = (AnimationService.animate env now2 s (some wid) params2).1 := by
    rw [hs2A, heq2', hp2]
  have hprop2 : (builtAnim now2 wid params2 w).property = prop := hp2
  have hfind : findKey s2.animations (wid ++ ":" ++ prop) =
      some (builtAnim now2 wid params2 w) := by
    rw [hs2A]
    exact findKey_insertKey_self _ _ _
  have hwf2 : wfAnims s2.animations := by
    rw [hs2A]
    exact wfAnims_insertKey _ _ _ hwf (by rw [hprop2]; rfl)
  refine ⟨hconjA, builtAnim now2 wid params2 w, hfind, rfl, rfl, hprop2, rfl,
    ?_, ?_⟩
  · intro now hnc
    obtain ⟨hc1, hc2, _, _⟩ := tick_key_spec env s2 now wid prop
      (builtAnim now2 wid params2 w) w hw hh hwf2 hfind rfl hprop2
    exact ⟨by simpa [hnc] using hc1, by simpa [hnc] using hc2⟩
  · intro now hc
    obtain ⟨hc1, hc2, hc3, hwf3⟩ := tick_key_spec env s2 now wid prop
      (builtAnim now2 wid params2 w) w hw hh hwf2 hfind rfl hprop2
    refine ⟨hc3 hc, by simpa [hc] using hc1, by simpa [hc] using hc2, ?_⟩
    intro now'
    exact tick_key_absent env (AnimationService.tick env s2 now).1 now'
      wid prop hwf3 (by simpa [hc] using hc2)

theorem animation_overwrite_witness :
    (AnimationService.animate envW 0
        (AnimationService.animate envW 0 animState0 (some "w") animParams1).1
        (some "w") animParams2).1 =
      (AnimationService.animate envW 0 animState0 (some "w") animParams2).1 := by
  exact (animation_overwrite envW animState0 _ "w" "x" wWin animParams1
    animParams2 0 0 (by decide) rfl
    (by constructor <;> simp [animState0]) rfl rfl rfl).1

end FloatingPalette
